import Mathlib

/-!
Shallow embedding of the notification orchestration and deduplication engine
of the vgs-stars service (`app/services/notification_service.py`,
`app/services/database.py`, `app/services/email_service.py`,
`app/services/cloud_tasks.py`), together with theorems settling the
specification claims about it.

Dates and timestamps are modelled as natural numbers (day/second ordinals);
only their ordering matters to the embedded code.  The MongoDB collections
are modelled as in-memory lists; collaborator calls that may raise are
modelled with `Except String`.
-/

namespace VgsStars

/-- Status of a notification or batch (`NotificationStatus` in
`app/models/notifications.py`). -/
inductive NotificationStatus
  | pending
  | sent
  | failed
deriving DecidableEq, Repr

/-- Type of a notification (`NotificationType` in
`app/models/notifications.py`). -/
inductive NotificationType
  | expiring_soon
  | expired
deriving DecidableEq, Repr

/-- An authorisation record from the STARS registry (`Auth` in
`app/models/stars.py`); only the fields read by the notification engine are
modelled. -/
structure Auth where
  id : Nat
  map_id : Nat
  map_name : String
  resource_id : String
  resource_name : String
  expiry : Option Nat
deriving DecidableEq, Repr

/-- A user account (`User` in `app/models/stars.py`); only the fields read by
the notification engine are modelled. -/
structure User where
  id : String
  name : String
  email : String
deriving DecidableEq, Repr

/-- Summary of one authorisation inside a batch (`AuthSummary` in
`app/models/notifications.py`). -/
structure AuthSummary where
  auth_id : Nat
  map_id : Nat
  auth_name : String
  expiry_date : Nat
deriving DecidableEq, Repr

/-- A batched notification document (`NotificationBatch` in
`app/models/notifications.py`). -/
structure NotificationBatch where
  user_id : String
  user_email : String
  resource_id : String
  resource_name : String
  notification_type : NotificationType
  sent_at : Option Nat
  subject : String
  status : NotificationStatus
  error : Option String
  auths : List AuthSummary
deriving DecidableEq, Repr

/-- An individual per-authorisation notification document (`Notification` in
`app/models/notifications.py`); only the fields the deduplication gate reads
(`authId`, `status`) are modelled. -/
structure Notification where
  auth_id : Nat
  status : NotificationStatus
deriving DecidableEq, Repr

/-- The MongoDB store: the `auths_notification` collection of individual
notification documents and the `auth_notification_batches` collection of
batch documents (`app/services/database.py`). -/
structure Store where
  notifications : List Notification
  batches : List NotificationBatch
deriving DecidableEq, Repr

/-- `database.get_notifications_for_auth`: all individual notification
documents whose `authId` matches (the deduplication read). -/
def get_notifications_for_auth (s : Store) (auth_id : Nat) : List Notification :=
  s.notifications.filter (fun n => n.auth_id == auth_id)

/-- `database.save_notification_batch`: inserts one batch document into the
batch collection; it writes no individual notification documents. -/
def save_notification_batch (s : Store) (batch : NotificationBatch) : Store :=
  { s with batches := s.batches ++ [batch] }

/-- The status test inside `should_send_notification`: a prior notification
blocks a resend when its status is `sent` or `pending`. -/
def notifBlocks (n : Notification) : Bool :=
  n.status == NotificationStatus.sent || n.status == NotificationStatus.pending

/-- `notification_service.should_send_notification`: the deduplication gate.
Returns `false` when any stored notification for this authorisation has
status `sent` or `pending`, else `true`. -/
def should_send_notification (s : Store) (auth : Auth) : Bool :=
  !((get_notifications_for_auth s auth.id).any notifBlocks)

/-- One step of the `defaultdict(list)` accumulation inside
`group_auths_by_person`: append the auth to its resource-id group, creating
the group at the end (dict insertion order) when the key is new. -/
def addAuthToGroups : List (String × List Auth) → Auth → List (String × List Auth)
  | [], a => [(a.resource_id, [a])]
  | (k, l) :: rest, a =>
    if k = a.resource_id then (k, l ++ [a]) :: rest
    else (k, l) :: addAuthToGroups rest a

/-- `notification_service.group_auths_by_person`: groups authorisations by
`resource_id`, keys in first-occurrence order, values in input order. -/
def group_auths_by_person (auths : List Auth) : List (String × List Auth) :=
  auths.foldl addAuthToGroups []

/-- The summary built for one auth inside `create_notification_batch`; `none`
when the auth has no expiry date (such records are excluded by the
`if auth.expiry` guard of the list comprehension). -/
def auth_summary_of (a : Auth) : Option AuthSummary :=
  match a.expiry with
  | some e => some { auth_id := a.id, map_id := a.map_id, auth_name := a.map_name, expiry_date := e }
  | none => none

/-- `notification_service.create_notification_batch`: builds the batch for
one recipient, excluding records without an expiry date, in input order. -/
def create_notification_batch (resource_id : String) (auths : List Auth)
    (user : User) (notification_type : NotificationType) : NotificationBatch :=
  let auth_summaries := auths.filterMap auth_summary_of
  let auth_count := auth_summaries.length
  let plural := if auth_count != 1 then "s" else ""
  let subject :=
    if notification_type == NotificationType.expiring_soon then
      "STARS Authorisations Expiring Soon - Action Required (" ++
        toString auth_count ++ " auth" ++ plural ++ ")"
    else
      "STARS Authorisations Expired - Urgent Action Required (" ++
        toString auth_count ++ " auth" ++ plural ++ ")"
  let resource_name :=
    match auths with
    | [] => resource_id
    | a :: _ => a.resource_name
  { user_id := user.id
    user_email := user.email
    resource_id := resource_id
    resource_name := resource_name
    notification_type := notification_type
    sent_at := none
    subject := subject
    status := NotificationStatus.pending
    error := none
    auths := auth_summaries }

/-- The `has_expired` test inside `check_and_notify_expiring_auths`: some
auth has an expiry date strictly before today (`auth.expiry and
auth.expiry < today`). -/
def has_expired (today : Nat) (auths : List Auth) : Bool :=
  auths.any (fun a =>
    match a.expiry with
    | some e => e < today
    | none => false)

/-- The notification-type classification inside
`check_and_notify_expiring_auths`: `expired` when some auth is already past
expiry, else `expiring_soon`. -/
def classify_notification (today : Nat) (auths : List Auth) : NotificationType :=
  if has_expired today auths then NotificationType.expired
  else NotificationType.expiring_soon

/-- The collaborator calls made by `check_and_notify_expiring_auths`, each
modelled as a function that can fail (a raised exception becomes
`Except.error` with the exception message).  `dedupLookup` is
`database.get_notifications_for_auth` as seen through a possibly failing
store connection; `now` and `today` stand for `datetime.now()` and
`date.today()` within the pass. -/
structure PassDeps where
  fetchExpiring : Except String (List Auth)
  getUser : String → Except String User
  dedupLookup : Store → Nat → Except String (List Notification)
  sendEmail : NotificationBatch → Except String Unit
  now : Nat
  today : Nat

/-- The honest store read: `database.get_notifications_for_auth` succeeding
against the current store. -/
def honestLookup : Store → Nat → Except String (List Notification) :=
  fun s auth_id => Except.ok (get_notifications_for_auth s auth_id)

/-- The list comprehension
`[auth for auth in person_auths if should_send_notification(auth)]`:
evaluates the deduplication gate left to right; a store read failure aborts
with the exception. -/
def filterAuthsToNotify (lookup : Nat → Except String (List Notification)) :
    List Auth → Except String (List Auth)
  | [] => Except.ok []
  | a :: rest =>
    match lookup a.id with
    | Except.error e => Except.error e
    | Except.ok existing =>
      match filterAuthsToNotify lookup rest with
      | Except.error e => Except.error e
      | Except.ok tail =>
        Except.ok (if !(existing.any notifBlocks) then a :: tail else tail)

/-- The mutable state threaded through the per-recipient loop of
`check_and_notify_expiring_auths`: the store plus the
`notifications_sent` / `notifications_failed` counters and the `errors`
list. -/
structure PassState where
  store : Store
  sent : Nat
  failed : Nat
  errors : List String
deriving DecidableEq, Repr

/-- The body of the per-recipient loop of `check_and_notify_expiring_auths`
(lines 188-245): resolve the user, filter through the deduplication gate,
skip when nothing remains, otherwise build the batch, attempt the send
(inner `try`), and save the batch; any exception outside the inner `try` is
caught by the outer per-recipient handler, which increments the failed
counter and records the error. -/
def processPerson (deps : PassDeps) (st : PassState)
    (entry : String × List Auth) : PassState :=
  let attempt : Except String PassState :=
    match deps.getUser entry.1 with
    | Except.error e => Except.error e
    | Except.ok user =>
      match filterAuthsToNotify (deps.dedupLookup st.store) entry.2 with
      | Except.error e => Except.error e
      | Except.ok auths_to_notify =>
        if auths_to_notify.isEmpty then
          Except.ok st
        else
          let notification_type := classify_notification deps.today auths_to_notify
          let batch := create_notification_batch entry.1 auths_to_notify user notification_type
          let next :=
            match deps.sendEmail batch with
            | Except.ok _ =>
              ({ batch with status := NotificationStatus.sent, sent_at := some deps.now },
                { st with sent := st.sent + 1 })
            | Except.error e =>
              ({ batch with status := NotificationStatus.failed, error := some e },
                { st with failed := st.failed + 1,
                          errors := st.errors ++
                            ["Failed to send email to " ++ user.email ++ ": " ++ e] })
          Except.ok { next.2 with store := save_notification_batch next.2.store next.1 }
  match attempt with
  | Except.ok st' => st'
  | Except.error e =>
    { st with failed := st.failed + 1,
              errors := st.errors ++
                ["Failed to process notifications for " ++ entry.1 ++ ": " ++ e] }

/-- The result dictionary returned by `check_and_notify_expiring_auths`. -/
structure PassResult where
  success : Bool
  notifications_sent : Nat
  notifications_failed : Nat
  total_expiring_auths : Nat
  users_notified : Nat
  emails_sent : Nat
  errors : List String
deriving DecidableEq, Repr

/-- The zero-count result used for the empty-registry and fatal paths. -/
def zeroResult (success : Bool) (errors : List String) : PassResult :=
  { success := success
    notifications_sent := 0
    notifications_failed := 0
    total_expiring_auths := 0
    users_notified := 0
    emails_sent := 0
    errors := errors }

/-- `notification_service.check_and_notify_expiring_auths`: the immediate
orchestration pass, returning the result summary together with the final
store state. -/
def check_and_notify_expiring_auths (deps : PassDeps) (s0 : Store) :
    PassResult × Store :=
  match deps.fetchExpiring with
  | Except.error e => (zeroResult false [e], s0)
  | Except.ok expiring_auths =>
    if expiring_auths.isEmpty then
      (zeroResult true [], s0)
    else
      let auths_by_person := group_auths_by_person expiring_auths
      let final := auths_by_person.foldl (processPerson deps)
        { store := s0, sent := 0, failed := 0, errors := [] }
      ({ success := true
         notifications_sent := final.sent
         notifications_failed := final.failed
         total_expiring_auths := expiring_auths.length
         users_notified := auths_by_person.length
         emails_sent := final.sent
         errors := final.errors }, final.store)

/-- Models `strftime("%d %B %Y")`: with dates as day ordinals the exact
display text is irrelevant; rendering is injective in the date. -/
def fmtDate (d : Nat) : String :=
  toString d

/-- The 60-dash separator line (`"-" * 60`) of the plain-text template. -/
def sepLine : String :=
  String.mk (List.replicate 60 (Char.ofNat 45))

/-- `ASM_PREFERENCES_URL_TAG` in `app/services/email_service.py`. -/
def asmTag : String :=
  "<%asm_preferences_raw_url%>"

/-- The three plain-text lines the template loop appends per authorisation. -/
def plain_auth_block (a : AuthSummary) : List String :=
  ["- " ++ a.auth_name, "  Expiry: " ++ fmtDate a.expiry_date, ""]

/-- The four HTML table lines the template loop appends per authorisation. -/
def html_auth_block (a : AuthSummary) : List String :=
  ["<tr>", "<td>" ++ a.auth_name ++ "</td>", "<td>" ++ fmtDate a.expiry_date ++ "</td>", "</tr>"]

/-- The rendered e-mail: the joined HTML and plain-text line lists. -/
structure RenderedEmail where
  html : List String
  plain : List String
deriving DecidableEq, Repr

/-- `email_service.render_email_template`: sorts the batch summaries by
expiry date (earliest first), highlights the earliest expiry, and renders
the plain-text and HTML bodies from the sorted list. -/
def render_email_template (batch : NotificationBatch) : RenderedEmail :=
  let sorted_auths := batch.auths.mergeSort (fun a b => a.expiry_date ≤ b.expiry_date)
  let earliest_expiry := sorted_auths.head?.map (fun a => a.expiry_date)
  let plain_lines :=
    ["Dear " ++ batch.resource_name ++ ",",
     "",
     "This is a notification that you have " ++ toString batch.auths.length ++
       " STARS authorisation(s) expiring soon.",
     ""]
  let plain_lines := plain_lines ++
    (match earliest_expiry with
     | some d => ["Earliest expiry: " ++ fmtDate d, ""]
     | none => [])
  let plain_lines := plain_lines ++ ["Authorisations expiring:", sepLine]
  let plain_lines := sorted_auths.foldl
    (fun acc a => acc ++ ["- " ++ a.auth_name, "  Expiry: " ++ fmtDate a.expiry_date, ""])
    plain_lines
  let plain_lines := plain_lines ++
    [sepLine,
     "",
     "Please renew your authorisations via your QESO.",
     "",
     "This is an automated notification from the 661 VGS STARS system.",
     "Manage preferences: " ++ asmTag,
     "",
     "https://github.com/mjennings061/vgs-stars"]
  let html_lines :=
    ["<html>",
     "<head>",
     "<style>",
     "body \x7b font-family: Arial, sans-serif; line-height: 1.6; color: #333; \x7d",
     "h2 \x7b color: #2c3e50; \x7d",
     "table \x7b border-collapse: collapse; width: 100%; margin: 20px 0; \x7d",
     "th, td \x7b border: 1px solid #ddd; padding: 12px; text-align: left; \x7d",
     "th \x7b background-color: #3498db; color: white; \x7d",
     "tr:nth-child(even) \x7b background-color: #f2f2f2; \x7d",
     ".warning \x7b color: #e74c3c; font-weight: bold; \x7d",
     ".footer \x7b margin-top: 30px; font-size: 0.9em; color: #7f8c8d; \x7d",
     "</style>",
     "</head>",
     "<body>",
     "<h2>Dear " ++ batch.resource_name ++ ",</h2>",
     "<p>This is a notification that you have <strong>" ++ toString batch.auths.length ++
       "</strong> STARS authorisation(s) expiring soon.</p>"]
  let html_lines := html_lines ++
    (match earliest_expiry with
     | some d => ["<p class=\"warning\">Earliest expiry: " ++ fmtDate d ++ "</p>"]
     | none => [])
  let html_lines := html_lines ++
    ["<h3>Authorisations Expiring:</h3>",
     "<table>",
     "<tr>",
     "<th>Authorisation</th>",
     "<th>Expiry Date</th>",
     "</tr>"]
  let html_lines := sorted_auths.foldl
    (fun acc a =>
      acc ++ ["<tr>", "<td>" ++ a.auth_name ++ "</td>", "<td>" ++ fmtDate a.expiry_date ++ "</td>", "</tr>"])
    html_lines
  let html_lines := html_lines ++
    ["</table>",
     "<p>Please renew your authorisations via your QESO.</p>",
     "<p class=\"footer\">This is an automated notification from the " ++
       "<a href=\"https://github.com/mjennings061/vgs-stars\">" ++
       "661 VGS STARS system</a>.<br>" ++
       "<a href=\"" ++ asmTag ++ "\">Manage preferences</a></p>",
     "</body>",
     "</html>"]
  { html := html_lines, plain := plain_lines }

/-- The sorted summary list computed at the top of `render_email_template`
(`sorted(batch.auths, key=lambda a: a.expiry_date)`). -/
def sorted_auths (batch : NotificationBatch) : List AuthSummary :=
  batch.auths.mergeSort (fun a b => a.expiry_date ≤ b.expiry_date)

/-- The highlighted earliest expiry computed in `render_email_template`
(`sorted_auths[0].expiry_date if sorted_auths else None`). -/
def earliest_expiry (batch : NotificationBatch) : Option Nat :=
  (sorted_auths batch).head?.map (fun a => a.expiry_date)

/-- A Cloud Tasks task as built by `cloud_tasks.enqueue_send_notification`:
the batch id in the request body, and a schedule time of now plus the delay
when the delay is positive (no schedule time means immediate dispatch). -/
structure QueueTask where
  batch_id : String
  schedule_time : Option Nat
deriving DecidableEq, Repr

/-- `cloud_tasks.enqueue_send_notification`: queues one task for a batch id
with the given delay in seconds. -/
def enqueue_send_notification (now : Nat) (batch_id : String)
    (delay_seconds : Nat) : QueueTask :=
  { batch_id := batch_id
    schedule_time := if delay_seconds > 0 then some (now + delay_seconds) else none }

/-- Modelled from the spec: the deferred-dispatch enqueue loop is code of
this repository missing from `src` (its consumer
`notification_service.send_notification_batch` is called by
`app/routes/auths.py` but neither it nor the loop that persists pending
batches and enqueues them is present).  Per the spec, the orchestrator
hands the queue each successive recipient's pending batch id with a delay
that is a fixed per-item stagger, strictly increasing per successive
recipient within one pass: the i-th recipient (0-based, in processing
order) gets delay i * stagger. -/
def deferred_dispatch_delays (batch_ids : List String) (stagger : Nat) :
    List (String × Nat) :=
  batch_ids.enum.map (fun p => (p.2, p.1 * stagger))

/-- Modelled from the spec: the tasks the deferred-dispatch pass enqueues,
each built by `enqueue_send_notification` from the staggered delays. -/
def deferred_dispatch_enqueue (now : Nat) (batch_ids : List String)
    (stagger : Nat) : List QueueTask :=
  (deferred_dispatch_delays batch_ids stagger).map
    (fun p => enqueue_send_notification now p.1 p.2)

theorem create_notification_batch_type (rid : String) (auths : List Auth)
    (user : User) (t : NotificationType) :
    (create_notification_batch rid auths user t).notification_type = t :=
  rfl

theorem create_notification_batch_auths (rid : String) (auths : List Auth)
    (user : User) (t : NotificationType) :
    (create_notification_batch rid auths user t).auths = auths.filterMap auth_summary_of :=
  rfl

theorem auth_summary_of_expiry (a : Auth) :
    (auth_summary_of a).map (fun s => s.expiry_date) = a.expiry := by
  cases h : a.expiry <;> simp [auth_summary_of, h]

theorem has_expired_iff_summary (today : Nat) (auths : List Auth) :
    has_expired today auths = true ↔
      ∃ s ∈ auths.filterMap auth_summary_of, s.expiry_date < today := by
  simp only [has_expired, List.any_eq_true, List.mem_filterMap]
  constructor
  · rintro ⟨a, ha, hm⟩
    cases he : a.expiry with
    | none => rw [he] at hm; simp at hm
    | some e =>
      rw [he] at hm
      simp only [decide_eq_true_eq] at hm
      exact ⟨{ auth_id := a.id, map_id := a.map_id, auth_name := a.map_name, expiry_date := e },
        ⟨a, ha, by simp [auth_summary_of, he]⟩, hm⟩
  · rintro ⟨s, ⟨a, ha, hs⟩, hlt⟩
    refine ⟨a, ha, ?_⟩
    cases he : a.expiry with
    | none => simp [auth_summary_of, he] at hs
    | some e =>
      simp only [auth_summary_of, he, Option.some.injEq] at hs
      subst hs
      simpa using hlt

/-- C2: the deduplication gate `should_send_notification` returns `false`
exactly when the store holds a notification for the auth id with status
`sent` or `pending`, and returns `true` whenever every stored notification
for that id (possibly none) has status `failed`. -/
theorem should_send_notification_spec (s : Store) (auth : Auth) :
    (should_send_notification s auth = false ↔
      ∃ n ∈ s.notifications, n.auth_id = auth.id ∧
        (n.status = NotificationStatus.sent ∨ n.status = NotificationStatus.pending)) ∧
    ((∀ n ∈ s.notifications, n.auth_id = auth.id → n.status = NotificationStatus.failed) →
      should_send_notification s auth = true) := by
  have hiff : should_send_notification s auth = false ↔
      ∃ n ∈ s.notifications, n.auth_id = auth.id ∧
        (n.status = NotificationStatus.sent ∨ n.status = NotificationStatus.pending) := by
    simp only [should_send_notification, Bool.not_eq_false', List.any_eq_true,
      get_notifications_for_auth, List.mem_filter, notifBlocks, Bool.or_eq_true,
      beq_iff_eq]
    constructor
    · rintro ⟨n, ⟨hn, hid⟩, hst⟩
      exact ⟨n, hn, hid, hst⟩
    · rintro ⟨n, hn, hid, hst⟩
      exact ⟨n, ⟨hn, hid⟩, hst⟩
  refine ⟨hiff, fun hall => ?_⟩
  cases hb : should_send_notification s auth with
  | true => rfl
  | false =>
    obtain ⟨n, hn, hid, hst⟩ := hiff.mp hb
    have := hall n hn hid
    rcases hst with h1 | h1 <;> rw [h1] at this <;> cases this

/-- C3: for a non-empty record list, the batch built with the
classification computed by the orchestrator has type `expired` exactly when
some included summary expires strictly before the evaluation date, and a
batch whose records all carry expiry dates on or after the evaluation date
is classified `expiring_soon` (the warning category). -/
theorem batch_category_correct (today : Nat) (rid : String) (auths : List Auth)
    (user : User) (h : auths ≠ []) :
    ((create_notification_batch rid auths user
        (classify_notification today auths)).notification_type = NotificationType.expired ↔
      ∃ s ∈ (create_notification_batch rid auths user
        (classify_notification today auths)).auths, s.expiry_date < today) ∧
    ((∀ a ∈ auths, ∀ e, a.expiry = some e → today ≤ e) →
      (create_notification_batch rid auths user
        (classify_notification today auths)).notification_type = NotificationType.expiring_soon) := by
  rw [create_notification_batch_type, create_notification_batch_auths]
  have hcl : classify_notification today auths = NotificationType.expired ↔
      has_expired today auths = true := by
    unfold classify_notification
    by_cases hx : has_expired today auths = true
    · simp [hx]
    · simp [hx]
  constructor
  · rw [hcl, has_expired_iff_summary]
  · intro hfut
    unfold classify_notification
    have hx : has_expired today auths = false := by
      cases hb : has_expired today auths with
      | false => rfl
      | true =>
        obtain ⟨s, hmem, hlt⟩ := (has_expired_iff_summary today auths).mp hb
        obtain ⟨a, ha, hs⟩ := List.mem_filterMap.mp hmem
        cases he : a.expiry with
        | none => simp [auth_summary_of, he] at hs
        | some e =>
          simp only [auth_summary_of, he, Option.some.injEq] at hs
          subst hs
          have h2 := hfut a ha e he
          simp at hlt
          omega
    simp [hx]

/-- A concrete authorisation used to instantiate hypothesised theorems. -/
def sampleAuth : Auth :=
  { id := 1, map_id := 2, map_name := "A1", resource_id := "R:1",
    resource_name := "P", expiry := some 30 }

/-- A concrete user used to instantiate hypothesised theorems. -/
def sampleUser : User :=
  { id := "u1", name := "P", email := "p@x.org" }

/-- C3 witness: `batch_category_correct` instantiated at a one-record list
expiring after the evaluation date. -/
theorem batch_category_correct_witness :
    ([sampleAuth] : List Auth) ≠ [] ∧
    (((create_notification_batch "R:1" [sampleAuth] sampleUser
        (classify_notification 10 [sampleAuth])).notification_type =
          NotificationType.expired ↔
        ∃ s ∈ (create_notification_batch "R:1" [sampleAuth] sampleUser
          (classify_notification 10 [sampleAuth])).auths, s.expiry_date < 10) ∧
      ((∀ a ∈ ([sampleAuth] : List Auth), ∀ e, a.expiry = some e → 10 ≤ e) →
        (create_notification_batch "R:1" [sampleAuth] sampleUser
          (classify_notification 10 [sampleAuth])).notification_type =
            NotificationType.expiring_soon)) :=
  ⟨by decide, batch_category_correct 10 "R:1" [sampleAuth] sampleUser (by decide)⟩

theorem sorted_auths_sorted (batch : NotificationBatch) :
    List.Sorted (· ≤ ·) ((sorted_auths batch).map (fun s => s.expiry_date)) := by
  unfold sorted_auths
  rw [List.Sorted, List.pairwise_map]
  refine List.Pairwise.imp ?_
    (List.sorted_mergeSort ?_ ?_ batch.auths)
  · intro a b hab
    simpa using hab
  · intro a b c hab hbc
    simp only [decide_eq_true_eq] at hab hbc ⊢
    omega
  · intro a b
    simpa using Nat.le_total a.expiry_date b.expiry_date

theorem sorted_auths_perm (batch : NotificationBatch) :
    (sorted_auths batch).Perm batch.auths :=
  List.mergeSort_perm batch.auths _

/-- C5 counterexample: a batch built from two records whose expiry dates
arrive latest-first keeps them in that order, so its summary list is not
sorted by expiry date ascending. -/
theorem create_batch_sorted_counterexample :
    ¬ List.Sorted (· ≤ ·)
      (((create_notification_batch "R:1"
        [{ id := 1, map_id := 1, map_name := "A", resource_id := "R:1",
           resource_name := "P", expiry := some 20 },
         { id := 2, map_id := 2, map_name := "B", resource_id := "R:1",
           resource_name := "P", expiry := some 10 }]
        sampleUser NotificationType.expiring_soon).auths).map
          (fun s => s.expiry_date)) := by
  decide

/-- C5 amended: a built batch carries its record summaries in the input
record order (each record with an expiry date contributing its date in
place); the ascending-by-expiry ordering instead holds for the sorted list
computed by the email renderer. -/
theorem create_batch_keeps_input_order (rid : String) (auths : List Auth)
    (user : User) (t : NotificationType) :
    ((create_notification_batch rid auths user t).auths.map (fun s => s.expiry_date) =
      auths.filterMap (fun a => a.expiry)) ∧
    List.Sorted (· ≤ ·)
      ((sorted_auths (create_notification_batch rid auths user t)).map
        (fun s => s.expiry_date)) := by
  constructor
  · rw [create_notification_batch_auths, List.map_filterMap]
    simp only [auth_summary_of_expiry]
  · exact sorted_auths_sorted _

/-- C9: deferred-dispatch delays are the per-recipient index times the
fixed stagger, strictly increasing along the processing order, with each
batch id handed to the queue unchanged and in order. -/
theorem deferred_dispatch_staggered (now : Nat) (ids : List String)
    (stagger : Nat) (h : 0 < stagger) :
    ((deferred_dispatch_delays ids stagger).map Prod.snd =
      (List.range ids.length).map (fun i => i * stagger)) ∧
    List.Pairwise (· < ·) ((deferred_dispatch_delays ids stagger).map Prod.snd) ∧
    (deferred_dispatch_enqueue now ids stagger).map QueueTask.batch_id = ids := by
  have hmap : (deferred_dispatch_delays ids stagger).map Prod.snd =
      (List.range ids.length).map (fun i => i * stagger) := by
    unfold deferred_dispatch_delays
    rw [List.map_map, ← List.enum_map_fst ids, List.map_map]
    rfl
  refine ⟨hmap, ?_, ?_⟩
  · rw [hmap, List.pairwise_map]
    exact (List.pairwise_lt_range ids.length).imp
      (fun hij => Nat.mul_lt_mul_of_lt_of_le hij (Nat.le_refl stagger) h)
  · unfold deferred_dispatch_enqueue deferred_dispatch_delays enqueue_send_notification
    simp only [List.map_map]
    exact List.enum_map_snd ids

/-- C9 witness: with three recipients and a 20-second stagger the enqueued
delays are 0, 20 and 40 seconds. -/
theorem deferred_dispatch_staggered_witness :
    0 < 20 ∧
    (((deferred_dispatch_delays ["b1", "b2", "b3"] 20).map Prod.snd =
        (List.range (["b1", "b2", "b3"] : List String).length).map (fun i => i * 20)) ∧
      List.Pairwise (· < ·) ((deferred_dispatch_delays ["b1", "b2", "b3"] 20).map Prod.snd) ∧
      (deferred_dispatch_enqueue 0 ["b1", "b2", "b3"] 20).map QueueTask.batch_id =
        ["b1", "b2", "b3"]) ∧
    (deferred_dispatch_delays ["b1", "b2", "b3"] 20).map Prod.snd = [0, 20, 40] :=
  ⟨by decide, deferred_dispatch_staggered 0 ["b1", "b2", "b3"] 20 (by decide), by decide⟩

/-- The plain-text lines of the template above the per-authorisation rows. -/
def plainIntro (batch : NotificationBatch) : List String :=
  ["Dear " ++ batch.resource_name ++ ",",
   "",
   "This is a notification that you have " ++ toString batch.auths.length ++
     " STARS authorisation(s) expiring soon.",
   ""] ++
  (match earliest_expiry batch with
   | some d => ["Earliest expiry: " ++ fmtDate d, ""]
   | none => []) ++
  ["Authorisations expiring:", sepLine]

/-- The plain-text lines of the template below the per-authorisation rows. -/
def plainOutro : List String :=
  [sepLine,
   "",
   "Please renew your authorisations via your QESO.",
   "",
   "This is an automated notification from the 661 VGS STARS system.",
   "Manage preferences: " ++ asmTag,
   "",
   "https://github.com/mjennings061/vgs-stars"]

/-- The HTML lines of the template above the per-authorisation table rows. -/
def htmlIntro (batch : NotificationBatch) : List String :=
  ["<html>",
   "<head>",
   "<style>",
   "body \x7b font-family: Arial, sans-serif; line-height: 1.6; color: #333; \x7d",
   "h2 \x7b color: #2c3e50; \x7d",
   "table \x7b border-collapse: collapse; width: 100%; margin: 20px 0; \x7d",
   "th, td \x7b border: 1px solid #ddd; padding: 12px; text-align: left; \x7d",
   "th \x7b background-color: #3498db; color: white; \x7d",
   "tr:nth-child(even) \x7b background-color: #f2f2f2; \x7d",
   ".warning \x7b color: #e74c3c; font-weight: bold; \x7d",
   ".footer \x7b margin-top: 30px; font-size: 0.9em; color: #7f8c8d; \x7d",
   "</style>",
   "</head>",
   "<body>",
   "<h2>Dear " ++ batch.resource_name ++ ",</h2>",
   "<p>This is a notification that you have <strong>" ++ toString batch.auths.length ++
     "</strong> STARS authorisation(s) expiring soon.</p>"] ++
  (match earliest_expiry batch with
   | some d => ["<p class=\"warning\">Earliest expiry: " ++ fmtDate d ++ "</p>"]
   | none => []) ++
  ["<h3>Authorisations Expiring:</h3>",
   "<table>",
   "<tr>",
   "<th>Authorisation</th>",
   "<th>Expiry Date</th>",
   "</tr>"]

/-- The HTML lines of the template below the per-authorisation table rows. -/
def htmlOutro : List String :=
  ["</table>",
   "<p>Please renew your authorisations via your QESO.</p>",
   "<p class=\"footer\">This is an automated notification from the " ++
     "<a href=\"https://github.com/mjennings061/vgs-stars\">" ++
     "661 VGS STARS system</a>.<br>" ++
     "<a href=\"" ++ asmTag ++ "\">Manage preferences</a></p>",
   "</body>",
   "</html>"]

theorem plain_fold (l : List AuthSummary) (init : List String) :
    l.foldl (fun acc a =>
      acc ++ ["- " ++ a.auth_name, "  Expiry: " ++ fmtDate a.expiry_date, ""]) init =
    init ++ l.flatMap plain_auth_block := by
  induction l generalizing init with
  | nil => simp
  | cons a t ih => simp [ih, plain_auth_block]

theorem html_fold (l : List AuthSummary) (init : List String) :
    l.foldl (fun acc a =>
      acc ++ ["<tr>", "<td>" ++ a.auth_name ++ "</td>",
        "<td>" ++ fmtDate a.expiry_date ++ "</td>", "</tr>"]) init =
    init ++ l.flatMap html_auth_block := by
  induction l generalizing init with
  | nil => simp
  | cons a t ih => simp [ih, html_auth_block]

theorem render_email_template_shape (batch : NotificationBatch) :
    (render_email_template batch).plain =
      plainIntro batch ++ (sorted_auths batch).flatMap plain_auth_block ++ plainOutro ∧
    (render_email_template batch).html =
      htmlIntro batch ++ (sorted_auths batch).flatMap html_auth_block ++ htmlOutro := by
  unfold render_email_template plainIntro htmlIntro plainOutro htmlOutro
    earliest_expiry sorted_auths
  dsimp only
  rw [plain_fold, html_fold]
  constructor <;> simp [List.append_assoc]

/-- C10: the email renderer sorts the batch summaries by expiry date
ascending independently of the stored order (the rendered list is a sorted
permutation of the batch summaries, and both bodies consist of a header,
the per-authorisation blocks in that sorted order, and a footer), and the
highlighted earliest expiry equals the minimum expiry date over the batch
summaries. -/
theorem render_email_template_spec (batch : NotificationBatch)
    (h : batch.auths ≠ []) :
    List.Sorted (· ≤ ·) ((sorted_auths batch).map (fun s => s.expiry_date)) ∧
    (sorted_auths batch).Perm batch.auths ∧
    (∃ d, earliest_expiry batch = some d ∧
      (∀ s ∈ batch.auths, d ≤ s.expiry_date) ∧
      (∃ s ∈ batch.auths, s.expiry_date = d)) ∧
    (render_email_template batch).plain =
      plainIntro batch ++ (sorted_auths batch).flatMap plain_auth_block ++ plainOutro ∧
    (render_email_template batch).html =
      htmlIntro batch ++ (sorted_auths batch).flatMap html_auth_block ++ htmlOutro := by
  obtain ⟨hplain, hhtml⟩ := render_email_template_shape batch
  have hperm := sorted_auths_perm batch
  have hsorted := sorted_auths_sorted batch
  refine ⟨hsorted, hperm, ?_, hplain, hhtml⟩
  have hne : sorted_auths batch ≠ [] := by
    intro hnil
    exact h ((hnil ▸ hperm).symm.eq_nil)
  obtain ⟨c, cs, hcons⟩ := List.exists_cons_of_ne_nil hne
  refine ⟨c.expiry_date, ?_, ?_, ?_⟩
  · simp [earliest_expiry, hcons]
  · intro s hs
    have hs2 : s ∈ c :: cs := hcons ▸ hperm.mem_iff.mpr hs
    rcases List.mem_cons.mp hs2 with h1 | h1
    · subst h1
      exact Nat.le_refl _
    · rw [hcons] at hsorted
      exact List.rel_of_sorted_cons hsorted s.expiry_date
        (List.mem_map_of_mem (fun s => s.expiry_date) h1)
  · refine ⟨c, ?_, rfl⟩
    exact hperm.mem_iff.mp (hcons ▸ List.mem_cons_self c cs)

/-- A concrete batch with two unsorted summaries used to instantiate
hypothesised theorems about rendering. -/
def sampleBatch : NotificationBatch :=
  { user_id := "u1"
    user_email := "p@x.org"
    resource_id := "R:1"
    resource_name := "P"
    notification_type := NotificationType.expiring_soon
    sent_at := none
    subject := "s"
    status := NotificationStatus.pending
    error := none
    auths := [{ auth_id := 1, map_id := 2, auth_name := "A1", expiry_date := 25 },
              { auth_id := 3, map_id := 4, auth_name := "A2", expiry_date := 15 }] }

/-- C10 witness: `render_email_template_spec` instantiated at a two-summary
batch stored latest-first. -/
theorem render_email_template_spec_witness :
    sampleBatch.auths ≠ [] ∧
    (List.Sorted (· ≤ ·) ((sorted_auths sampleBatch).map (fun s => s.expiry_date)) ∧
      (sorted_auths sampleBatch).Perm sampleBatch.auths ∧
      (∃ d, earliest_expiry sampleBatch = some d ∧
        (∀ s ∈ sampleBatch.auths, d ≤ s.expiry_date) ∧
        (∃ s ∈ sampleBatch.auths, s.expiry_date = d)) ∧
      (render_email_template sampleBatch).plain =
        plainIntro sampleBatch ++
          (sorted_auths sampleBatch).flatMap plain_auth_block ++ plainOutro ∧
      (render_email_template sampleBatch).html =
        htmlIntro sampleBatch ++
          (sorted_auths sampleBatch).flatMap html_auth_block ++ htmlOutro) :=
  ⟨by decide, render_email_template_spec sampleBatch (by decide)⟩

/-- Lookup of a group value by key, `[]` when the key is absent (the view of
the grouping dictionary used in the invariant proofs). -/
def groupVal : List (String × List Auth) → String → List Auth
  | [], _ => []
  | (k', l) :: rest, k => if k' = k then l else groupVal rest k

theorem groupVal_add (G : List (String × List Auth)) (a : Auth) (k : String) :
    groupVal (addAuthToGroups G a) k =
      if a.resource_id = k then groupVal G k ++ [a] else groupVal G k := by
  induction G with
  | nil =>
    by_cases hk : a.resource_id = k <;>
      simp [addAuthToGroups, groupVal, hk]
  | cons p rest ih =>
    obtain ⟨k', l⟩ := p
    by_cases h1 : k' = a.resource_id
    · by_cases hk : k' = k
      · have h2 : a.resource_id = k := h1 ▸ hk
        simp [addAuthToGroups, groupVal, h1, hk, h2]
      · have h2 : ¬ (a.resource_id = k) := fun he => hk (h1.trans he)
        simp [addAuthToGroups, groupVal, h1, hk, h2]
    · by_cases hk : k' = k
      · have h2 : ¬ (k = a.resource_id) := fun he => h1 (hk.trans he)
        have h3 : ¬ (a.resource_id = k) := fun he => h2 he.symm
        simp [addAuthToGroups, groupVal, hk, h2, h3]
      · simp [addAuthToGroups, groupVal, h1, hk, ih]

theorem keys_add (G : List (String × List Auth)) (a : Auth) :
    (addAuthToGroups G a).map Prod.fst =
      if a.resource_id ∈ G.map Prod.fst then G.map Prod.fst
      else G.map Prod.fst ++ [a.resource_id] := by
  induction G with
  | nil => simp [addAuthToGroups]
  | cons p rest ih =>
    obtain ⟨k', l⟩ := p
    by_cases h1 : k' = a.resource_id
    · subst h1
      simp [addAuthToGroups]
    · have hne : ¬ (a.resource_id = k') := fun he => h1 he.symm
      by_cases h2 : a.resource_id ∈ rest.map Prod.fst <;>
        simp [addAuthToGroups, h1, ih, h2, hne]

theorem keys_add_nodup (G : List (String × List Auth)) (a : Auth)
    (hnd : (G.map Prod.fst).Nodup) : ((addAuthToGroups G a).map Prod.fst).Nodup := by
  rw [keys_add]
  by_cases h : a.resource_id ∈ G.map Prod.fst
  · simpa [h] using hnd
  · simp only [h, if_false]
    simpa [List.nodup_append, h] using hnd

theorem group_fold_inv (pending : List Auth) (processed : List Auth)
    (G : List (String × List Auth))
    (hval : ∀ k, groupVal G k = processed.filter (fun x => x.resource_id == k))
    (hnd : (G.map Prod.fst).Nodup) :
    (∀ k, groupVal (pending.foldl addAuthToGroups G) k =
      (processed ++ pending).filter (fun x => x.resource_id == k)) ∧
    ((pending.foldl addAuthToGroups G).map Prod.fst).Nodup := by
  induction pending generalizing processed G with
  | nil => simpa using ⟨hval, hnd⟩
  | cons a t ih =>
    have hval' : ∀ k, groupVal (addAuthToGroups G a) k =
        (processed ++ [a]).filter (fun x => x.resource_id == k) := by
      intro k
      rw [groupVal_add, List.filter_append, hval]
      by_cases hk : a.resource_id = k
      · simp [List.filter_cons, hk]
      · simp [List.filter_cons, hk]
    have h := ih (processed ++ [a]) (addAuthToGroups G a) hval' (keys_add_nodup G a hnd)
    simpa [List.append_assoc] using h

theorem groupVal_group_auths (auths : List Auth) (k : String) :
    groupVal (group_auths_by_person auths) k =
      auths.filter (fun x => x.resource_id == k) := by
  have h := group_fold_inv auths [] []
    (fun k => by simp [groupVal]) (by simp)
  simpa using h.1 k

theorem group_auths_keys_nodup (auths : List Auth) :
    ((group_auths_by_person auths).map Prod.fst).Nodup := by
  have h := group_fold_inv auths [] []
    (fun k => by simp [groupVal]) (by simp)
  simpa using h.2

theorem groupVal_of_mem (G : List (String × List Auth)) (k : String) (l : List Auth)
    (hnd : (G.map Prod.fst).Nodup) (hm : (k, l) ∈ G) : groupVal G k = l := by
  induction G with
  | nil => cases hm
  | cons p rest ih =>
    obtain ⟨k', l'⟩ := p
    simp only [List.map_cons, List.nodup_cons] at hnd
    rcases List.mem_cons.mp hm with h1 | h1
    · have hk : k = k' := congrArg Prod.fst h1
      have hl : l = l' := congrArg Prod.snd h1
      simp [groupVal, hk.symm, hl]
    · have hkne : ¬ (k' = k) := by
        intro he
        refine hnd.1 ?_
        rw [he]
        exact List.mem_map_of_mem Prod.fst h1
      simp [groupVal, hkne, ih hnd.2 h1]

theorem groupVal_of_not_mem_keys (G : List (String × List Auth)) (k : String)
    (hk : k ∉ G.map Prod.fst) : groupVal G k = [] := by
  induction G with
  | nil => rfl
  | cons p rest ih =>
    obtain ⟨k', l'⟩ := p
    rw [List.map_cons, List.mem_cons] at hk
    push_neg at hk
    have hne : ¬ (k' = k) := fun he => hk.1 he.symm
    simp [groupVal, hne, ih hk.2]

theorem group_auths_coverage (auths : List Auth) (a : Auth) (ha : a ∈ auths) :
    a.resource_id ∈ (group_auths_by_person auths).map Prod.fst := by
  by_contra hk
  have h0 := groupVal_of_not_mem_keys _ _ hk
  rw [groupVal_group_auths] at h0
  have : a ∈ auths.filter (fun x => x.resource_id == a.resource_id) :=
    List.mem_filter.mpr ⟨ha, by simp⟩
  rw [h0] at this
  cases this

theorem count_flatMap_groups (auths : List Auth) (G : List (String × List Auth))
    (hval : ∀ p ∈ G, p.2 = auths.filter (fun x => x.resource_id == p.1))
    (hnd : (G.map Prod.fst).Nodup) (x : Auth) :
    (G.flatMap Prod.snd).count x =
      if x.resource_id ∈ G.map Prod.fst then auths.count x else 0 := by
  induction G with
  | nil => simp
  | cons p rest ih =>
    obtain ⟨k, l⟩ := p
    simp only [List.map_cons, List.nodup_cons] at hnd
    have hl : l = auths.filter (fun y => y.resource_id == k) :=
      hval (k, l) (List.mem_cons_self _ _)
    have hrest := ih (fun q hq => hval q (List.mem_cons_of_mem _ hq)) hnd.2
    rw [List.flatMap_cons, List.count_append, hrest, List.map_cons]
    by_cases hx : x.resource_id = k
    · have hxr : x.resource_id ∉ rest.map Prod.fst := by
        rw [hx]
        exact hnd.1
      have hcl : l.count x = auths.count x := by
        rw [hl]
        exact List.count_filter (by simp [hx])
      rw [if_neg hxr, if_pos (List.mem_cons.mpr (Or.inl hx)), hcl, Nat.add_zero]
    · have hcl : l.count x = 0 := by
        rw [hl, List.count_eq_zero]
        intro hmem
        exact hx (by simpa using (List.mem_filter.mp hmem).2)
      rw [hcl]
      have hiff : x.resource_id ∈ k :: rest.map Prod.fst ↔
          x.resource_id ∈ rest.map Prod.fst := by
        constructor
        · intro hm
          rcases List.mem_cons.mp hm with h | h
          · exact absurd h hx
          · exact h
        · exact fun h => List.mem_cons_of_mem _ h
      by_cases hxr : x.resource_id ∈ rest.map Prod.fst
      · rw [if_pos hxr, if_pos (hiff.mpr hxr), Nat.zero_add]
      · rw [if_neg hxr, if_neg (fun hm => hxr (hiff.mp hm))]

/-- C4: grouping by recipient partitions the input without loss or
duplication: the concatenation of all group values is a permutation of the
input list, each group value is exactly the input subsequence of records
with that recipient id (so relative input order is preserved within each
group and an empty/unknown recipient id is grouped under that key like any
other), and every input record's recipient id owns a group. -/
theorem group_auths_by_person_partition (auths : List Auth) :
    ((group_auths_by_person auths).flatMap Prod.snd).Perm auths ∧
    (∀ p ∈ group_auths_by_person auths,
      p.2 = auths.filter (fun x => x.resource_id == p.1)) ∧
    (∀ a ∈ auths, a.resource_id ∈ (group_auths_by_person auths).map Prod.fst) := by
  have hval : ∀ p ∈ group_auths_by_person auths,
      p.2 = auths.filter (fun x => x.resource_id == p.1) := by
    intro p hp
    have := groupVal_of_mem _ p.1 p.2 (group_auths_keys_nodup auths) hp
    rw [← this, groupVal_group_auths]
  refine ⟨?_, hval, fun a ha => group_auths_coverage auths a ha⟩
  rw [List.perm_iff_count]
  intro x
  rw [count_flatMap_groups auths _ hval (group_auths_keys_nodup auths) x]
  by_cases hx : x.resource_id ∈ (group_auths_by_person auths).map Prod.fst
  · simp [hx]
  · have hxa : x ∉ auths := fun ha => hx (group_auths_coverage auths x ha)
    simp [hx, List.count_eq_zero.mpr hxa]

theorem processPerson_skip (deps : PassDeps) (st : PassState) (rid : String)
    (auths : List Auth) (user : User)
    (hu : deps.getUser rid = Except.ok user)
    (hf : filterAuthsToNotify (deps.dedupLookup st.store) auths = Except.ok []) :
    processPerson deps st (rid, auths) = st := by
  unfold processPerson
  rw [hu, hf]
  rfl

theorem processPerson_attempt_error (deps : PassDeps) (st : PassState)
    (rid : String) (auths : List Auth) (user : User) (e : String)
    (hu : deps.getUser rid = Except.ok user)
    (hf : filterAuthsToNotify (deps.dedupLookup st.store) auths = Except.error e) :
    processPerson deps st (rid, auths) =
      { st with failed := st.failed + 1,
                errors := st.errors ++
                  ["Failed to process notifications for " ++ rid ++ ": " ++ e] } := by
  unfold processPerson
  rw [hu, hf]

theorem processPerson_send_ok (deps : PassDeps) (st : PassState) (rid : String)
    (auths l : List Auth) (user : User)
    (hu : deps.getUser rid = Except.ok user)
    (hf : filterAuthsToNotify (deps.dedupLookup st.store) auths = Except.ok l)
    (hne : l ≠ [])
    (hs : deps.sendEmail
      (create_notification_batch rid l user (classify_notification deps.today l)) =
      Except.ok ()) :
    processPerson deps st (rid, auths) =
      { st with sent := st.sent + 1,
                store := save_notification_batch st.store
                  { create_notification_batch rid l user
                      (classify_notification deps.today l) with
                    status := NotificationStatus.sent, sent_at := some deps.now } } := by
  unfold processPerson
  rw [hu, hf]
  have hne2 : l.isEmpty = false := by
    cases l with
    | nil => exact absurd rfl hne
    | cons a t => rfl
  simp only [hne2, Bool.false_eq_true, if_false, hs]

theorem processPerson_send_error (deps : PassDeps) (st : PassState) (rid : String)
    (auths l : List Auth) (user : User) (e : String)
    (hu : deps.getUser rid = Except.ok user)
    (hf : filterAuthsToNotify (deps.dedupLookup st.store) auths = Except.ok l)
    (hne : l ≠ [])
    (hs : deps.sendEmail
      (create_notification_batch rid l user (classify_notification deps.today l)) =
      Except.error e) :
    processPerson deps st (rid, auths) =
      { st with failed := st.failed + 1,
                errors := st.errors ++
                  ["Failed to send email to " ++ user.email ++ ": " ++ e],
                store := save_notification_batch st.store
                  { create_notification_batch rid l user
                      (classify_notification deps.today l) with
                    status := NotificationStatus.failed, error := some e } } := by
  unfold processPerson
  rw [hu, hf]
  have hne2 : l.isEmpty = false := by
    cases l with
    | nil => exact absurd rfl hne
    | cons a t => rfl
  simp only [hne2, Bool.false_eq_true, if_false, hs]

theorem filterAuthsToNotify_honest_empty (s : Store) (auths : List Auth)
    (hs : s.notifications = []) :
    filterAuthsToNotify (honestLookup s) auths = Except.ok auths := by
  induction auths with
  | nil => rfl
  | cons a t ih =>
    unfold filterAuthsToNotify
    rw [show honestLookup s a.id = Except.ok [] by
      simp [honestLookup, get_notifications_for_auth, hs], ih]
    rfl

/-- The empty store used as the initial state of concrete pass runs. -/
def emptyStore : Store :=
  { notifications := [], batches := [] }

/-- Collaborators for a concrete single-recipient immediate pass in which
everything succeeds: the registry returns one expiring auth, the store read
succeeds against the live store, and the email send succeeds. -/
def allOkDeps : PassDeps :=
  { fetchExpiring := Except.ok [sampleAuth]
    getUser := fun _ => Except.ok sampleUser
    dedupLookup := honestLookup
    sendEmail := fun _ => Except.ok ()
    now := 100
    today := 10 }

/-- C1: the immediate pass persists only the `NotificationBatch` document.
After a fully successful single-recipient pass from an empty store, the
batch collection holds one batch with terminal status `sent`, but the
individual-notification collection is still empty, so the deduplication
lookup for the just-notified record finds no entry and the gate still
reports the record as owed — contradicting the claim that the batch is
persisted together with its per-record sibling entries as one unit. -/
theorem immediate_pass_saves_batch_without_records :
    (check_and_notify_expiring_auths allOkDeps emptyStore).1.notifications_sent = 1 ∧
    ((check_and_notify_expiring_auths allOkDeps emptyStore).2.batches.map
      (fun b => b.status)) = [NotificationStatus.sent] ∧
    (check_and_notify_expiring_auths allOkDeps emptyStore).2.notifications = [] ∧
    get_notifications_for_auth
      (check_and_notify_expiring_auths allOkDeps emptyStore).2 sampleAuth.id = [] ∧
    should_send_notification
      (check_and_notify_expiring_auths allOkDeps emptyStore).2 sampleAuth = true := by
  refine ⟨rfl, rfl, rfl, rfl, rfl⟩

/-- An expiring auth with no expiry date. -/
def authNoExpiry : Auth :=
  { id := 7, map_id := 8, map_name := "A7", resource_id := "R:7",
    resource_name := "Q", expiry := none }

/-- Collaborators for a concrete single-recipient immediate pass whose only
surviving record lacks an expiry date. -/
def noExpiryDeps : PassDeps :=
  { fetchExpiring := Except.ok [authNoExpiry]
    getUser := fun _ => Except.ok sampleUser
    dedupLookup := honestLookup
    sendEmail := fun _ => Except.ok ()
    now := 100
    today := 10 }

/-- C6 counterexample: when a recipient's only record passing the
deduplication gate lacks an expiry date, the pass still builds a batch with
an empty summary list, sends it, and persists it — the emptiness check is
on the dedup-filtered record list, not on the summary list. -/
theorem empty_batch_sent_counterexample :
    ((check_and_notify_expiring_auths noExpiryDeps emptyStore).2.batches.map
      (fun b => b.auths)) = [[]] ∧
    (check_and_notify_expiring_auths noExpiryDeps emptyStore).1.notifications_sent = 1 ∧
    ((check_and_notify_expiring_auths noExpiryDeps emptyStore).2.batches.map
      (fun b => b.status)) = [NotificationStatus.sent] := by
  refine ⟨rfl, rfl, rfl⟩

/-- C6 amended: the skip is keyed on the deduplication-filtered record
list: when no record of a recipient survives the dedup gate, that recipient
is skipped entirely — no email send, no store write, no counter or error
change (while, per the counterexample, surviving records that all lack
expiry dates still produce a sent and persisted batch with an empty summary
list). -/
theorem skip_on_empty_dedup_filter (deps : PassDeps) (st : PassState)
    (rid : String) (auths : List Auth) (user : User)
    (hu : deps.getUser rid = Except.ok user)
    (hf : filterAuthsToNotify (deps.dedupLookup st.store) auths = Except.ok []) :
    processPerson deps st (rid, auths) = st :=
  processPerson_skip deps st rid auths user hu hf

/-- A store that already holds a sent notification for `sampleAuth`. -/
def notifiedStore : Store :=
  { notifications := [{ auth_id := 1, status := NotificationStatus.sent }]
    batches := [] }

/-- C6 witness: `skip_on_empty_dedup_filter` instantiated at a recipient
whose only record is already recorded as sent. -/
theorem skip_on_empty_dedup_filter_witness :
    allOkDeps.getUser "R:1" = Except.ok sampleUser ∧
    filterAuthsToNotify (allOkDeps.dedupLookup notifiedStore) [sampleAuth] =
      Except.ok [] ∧
    processPerson allOkDeps
      { store := notifiedStore, sent := 0, failed := 0, errors := [] }
      ("R:1", [sampleAuth]) =
      { store := notifiedStore, sent := 0, failed := 0, errors := [] } :=
  ⟨rfl, rfl,
    skip_on_empty_dedup_filter allOkDeps
      { store := notifiedStore, sent := 0, failed := 0, errors := [] }
      "R:1" [sampleAuth] sampleUser rfl rfl⟩

/-- Collaborators for a concrete single-recipient immediate pass in which
the store read behind the deduplication gate raises. -/
def storeDownDeps : PassDeps :=
  { fetchExpiring := Except.ok [sampleAuth]
    getUser := fun _ => Except.ok sampleUser
    dedupLookup := fun _ _ => Except.error "store down"
    sendEmail := fun _ => Except.ok ()
    now := 100
    today := 10 }

/-- C8 counterexample: a store read failure raised by the deduplication
lookup is caught by the per-recipient handler, so the pass completes with
`success = true` and a failed count of one (not `success = false` with zero
counts), recording the error and writing nothing. -/
theorem dedup_failure_not_fatal_counterexample :
    (check_and_notify_expiring_auths storeDownDeps emptyStore).1.success = true ∧
    (check_and_notify_expiring_auths storeDownDeps emptyStore).1.notifications_failed = 1 ∧
    (check_and_notify_expiring_auths storeDownDeps emptyStore).1.errors =
      ["Failed to process notifications for R:1: store down"] ∧
    (check_and_notify_expiring_auths storeDownDeps emptyStore).2 = emptyStore := by
  refine ⟨rfl, rfl, rfl, rfl⟩

/-- C8 amended: a store read failure raised by the deduplication lookup is
contained to the recipient being processed: no email is sent and nothing is
written for them, the failed counter is incremented and the exception
message recorded, and the pass continues with the remaining recipients
(only a failure of the upstream registry fetch, before the per-recipient
loop, yields `success = false` with zero counts). -/
theorem dedup_store_failure_contained (deps : PassDeps) (st : PassState)
    (rid : String) (auths : List Auth) (user : User) (e : String)
    (hu : deps.getUser rid = Except.ok user)
    (hf : filterAuthsToNotify (deps.dedupLookup st.store) auths = Except.error e) :
    processPerson deps st (rid, auths) =
      { st with failed := st.failed + 1,
                errors := st.errors ++
                  ["Failed to process notifications for " ++ rid ++ ": " ++ e] } :=
  processPerson_attempt_error deps st rid auths user e hu hf

/-- C8 witness: `dedup_store_failure_contained` instantiated at a concrete
failing store. -/
theorem dedup_store_failure_contained_witness :
    storeDownDeps.getUser "R:1" = Except.ok sampleUser ∧
    filterAuthsToNotify (storeDownDeps.dedupLookup emptyStore) [sampleAuth] =
      Except.error "store down" ∧
    processPerson storeDownDeps
      { store := emptyStore, sent := 0, failed := 0, errors := [] }
      ("R:1", [sampleAuth]) =
      { store := emptyStore, sent := 0, failed := 0 + 1,
        errors := [] ++ ["Failed to process notifications for " ++ "R:1" ++ ": " ++ "store down"] } :=
  ⟨rfl, rfl,
    dedup_store_failure_contained storeDownDeps
      { store := emptyStore, sent := 0, failed := 0, errors := [] }
      "R:1" [sampleAuth] sampleUser "store down" rfl rfl⟩

theorem group_two (a1 a2 : Auth) (h : ¬ (a1.resource_id = a2.resource_id)) :
    group_auths_by_person [a1, a2] =
      [(a1.resource_id, [a1]), (a2.resource_id, [a2])] := by
  simp [group_auths_by_person, addAuthToGroups, h]

/-- C7: in an immediate pass over two recipients where the first send
raises and the second succeeds, the pass completes with `success = true`,
one sent, one failed, exactly one error string naming the first recipient's
email, and both batches persisted — the first with terminal status `failed`
carrying the error text, the second with terminal status `sent` carrying
the sent timestamp. A per-recipient email failure never aborts the pass. -/
theorem partial_failure_isolation
    (a1 a2 : Auth) (u1 u2 : User) (emsg : String)
    (getU : String → Except String User)
    (send : NotificationBatch → Except String Unit)
    (now today : Nat) (s0 : Store)
    (hrid : ¬ (a1.resource_id = a2.resource_id))
    (hu1 : getU a1.resource_id = Except.ok u1)
    (hu2 : getU a2.resource_id = Except.ok u2)
    (hs0 : s0.notifications = [])
    (hsend1 : send (create_notification_batch a1.resource_id [a1] u1
      (classify_notification today [a1])) = Except.error emsg)
    (hsend2 : send (create_notification_batch a2.resource_id [a2] u2
      (classify_notification today [a2])) = Except.ok ()) :
    (check_and_notify_expiring_auths
      ⟨Except.ok [a1, a2], getU, honestLookup, send, now, today⟩ s0).1 =
      { success := true
        notifications_sent := 1
        notifications_failed := 1
        total_expiring_auths := 2
        users_notified := 2
        emails_sent := 1
        errors := ["Failed to send email to " ++ u1.email ++ ": " ++ emsg] } ∧
    (check_and_notify_expiring_auths
      ⟨Except.ok [a1, a2], getU, honestLookup, send, now, today⟩ s0).2.notifications =
      s0.notifications ∧
    (check_and_notify_expiring_auths
      ⟨Except.ok [a1, a2], getU, honestLookup, send, now, today⟩ s0).2.batches =
      s0.batches ++
        [{ create_notification_batch a1.resource_id [a1] u1
             (classify_notification today [a1]) with
           status := NotificationStatus.failed, error := some emsg },
         { create_notification_batch a2.resource_id [a2] u2
             (classify_notification today [a2]) with
           status := NotificationStatus.sent, sent_at := some now }] := by
  have hstep1 :
      processPerson ⟨Except.ok [a1, a2], getU, honestLookup, send, now, today⟩
        { store := s0, sent := 0, failed := 0, errors := [] }
        (a1.resource_id, [a1]) =
      { store := save_notification_batch s0
          { create_notification_batch a1.resource_id [a1] u1
              (classify_notification today [a1]) with
            status := NotificationStatus.failed, error := some emsg }
        sent := 0
        failed := 0 + 1
        errors := [] ++ ["Failed to send email to " ++ u1.email ++ ": " ++ emsg] } :=
    processPerson_send_error _ _ a1.resource_id [a1] [a1] u1 emsg hu1
      (filterAuthsToNotify_honest_empty s0 [a1] hs0) (by simp) hsend1
  have hstep2 :
      processPerson ⟨Except.ok [a1, a2], getU, honestLookup, send, now, today⟩
        { store := save_notification_batch s0
            { create_notification_batch a1.resource_id [a1] u1
                (classify_notification today [a1]) with
              status := NotificationStatus.failed, error := some emsg }
          sent := 0
          failed := 0 + 1
          errors := [] ++ ["Failed to send email to " ++ u1.email ++ ": " ++ emsg] }
        (a2.resource_id, [a2]) =
      { store := save_notification_batch
          (save_notification_batch s0
            { create_notification_batch a1.resource_id [a1] u1
                (classify_notification today [a1]) with
              status := NotificationStatus.failed, error := some emsg })
          { create_notification_batch a2.resource_id [a2] u2
              (classify_notification today [a2]) with
            status := NotificationStatus.sent, sent_at := some now }
        sent := 0 + 1
        failed := 0 + 1
        errors := [] ++ ["Failed to send email to " ++ u1.email ++ ": " ++ emsg] } :=
    processPerson_send_ok _ _ a2.resource_id [a2] [a2] u2 hu2
      (filterAuthsToNotify_honest_empty _ [a2] hs0) (by simp) hsend2
  unfold check_and_notify_expiring_auths
  dsimp only
  rw [group_two a1 a2 hrid, List.foldl_cons, hstep1, List.foldl_cons, hstep2,
    List.foldl_nil]
  refine ⟨rfl, rfl, ?_⟩
  simp [save_notification_batch]

/-- A second recipient's authorisation. -/
def sampleAuth2 : Auth :=
  { id := 2, map_id := 3, map_name := "A2", resource_id := "R:2",
    resource_name := "Q", expiry := some 40 }

/-- A second recipient. -/
def sampleUser2 : User :=
  { id := "u2", name := "Q", email := "q@x.org" }

/-- The user-resolution collaborator of the two-recipient scenario. -/
def twoUserLookup : String → Except String User :=
  fun r => if r = "R:2" then Except.ok sampleUser2 else Except.ok sampleUser

/-- The email collaborator of the two-recipient scenario: sending to the
first recipient raises, sending to the second succeeds. -/
def failFirstSend : NotificationBatch → Except String Unit :=
  fun b => if b.user_id = "u2" then Except.ok () else Except.error "boom"

/-- C7 witness: `partial_failure_isolation` instantiated at two concrete
recipients with one auth each. -/
theorem partial_failure_isolation_witness :
    (check_and_notify_expiring_auths
      ⟨Except.ok [sampleAuth, sampleAuth2], twoUserLookup, honestLookup,
        failFirstSend, 100, 10⟩ emptyStore).1 =
      { success := true
        notifications_sent := 1
        notifications_failed := 1
        total_expiring_auths := 2
        users_notified := 2
        emails_sent := 1
        errors := ["Failed to send email to " ++ sampleUser.email ++ ": " ++ "boom"] } ∧
    (check_and_notify_expiring_auths
      ⟨Except.ok [sampleAuth, sampleAuth2], twoUserLookup, honestLookup,
        failFirstSend, 100, 10⟩ emptyStore).2.notifications =
      emptyStore.notifications ∧
    (check_and_notify_expiring_auths
      ⟨Except.ok [sampleAuth, sampleAuth2], twoUserLookup, honestLookup,
        failFirstSend, 100, 10⟩ emptyStore).2.batches =
      emptyStore.batches ++
        [{ create_notification_batch sampleAuth.resource_id [sampleAuth] sampleUser
             (classify_notification 10 [sampleAuth]) with
           status := NotificationStatus.failed, error := some "boom" },
         { create_notification_batch sampleAuth2.resource_id [sampleAuth2] sampleUser2
             (classify_notification 10 [sampleAuth2]) with
           status := NotificationStatus.sent, sent_at := some 100 }] :=
  partial_failure_isolation sampleAuth sampleAuth2 sampleUser sampleUser2 "boom"
    twoUserLookup failFirstSend 100 10 emptyStore
    (by decide) rfl rfl rfl rfl rfl

end VgsStars
